import Mathlib

/-!
Shallow embedding of `src/include/map_renderer.h` from maplibre-native-rs:
a configuration and control façade over the headless MapLibre rendering
engine (`mbgl`).  The façade itself (`MapRenderer_new`, `MapRenderer_render`,
`MapRenderer_setCamera`, `MapRenderer_setStyleUrl`,
`MapRenderer_setDebugFlags`) is translated from the source; the engine
(`mbgl::Map`, `mbgl::HeadlessFrontend`, `encodePNG`, …) is an external
dependency whose observable behaviour is modelled from the spec, with
opaque parts (the actual rasterisation, the PNG codec, allocation success)
taken as oracle parameters.
-/

namespace MapRendererSpec

/-- Carrier for a C++ `float` value.  The façade never performs
floating-point arithmetic — `float` values are only stored and passed
through unmodified — so we model a `float` by its 32-bit pattern. -/
structure F32 where
  bits : Nat
  deriving DecidableEq, Repr

/-- Carrier for a C++ `double` value.  As with `F32`, the façade only
stores and forwards `double` values, so we model a `double` by its
64-bit pattern. -/
structure F64 where
  bits : Nat
  deriving DecidableEq, Repr

/-- mbgl rendering mode enum (`mbgl::MapMode`). -/
inductive MapMode
  | continuous
  | static
  | tile
  deriving DecidableEq, Repr

/-- mbgl::Size — an unsigned (width, height) pair. -/
structure Size where
  width : Nat
  height : Nat
  deriving DecidableEq, Repr

/-- mbgl::LatLng — a latitude/longitude pair of doubles. -/
structure LatLng where
  latitude : F64
  longitude : F64
  deriving DecidableEq, Repr

/-- mbgl::util::DefaultStyle — a named default style entry
`DefaultStyle(url, name, currentVersion)`. -/
structure DefaultStyle where
  url : String
  name : String
  currentVersion : Nat
  deriving DecidableEq, Repr

/-- One URL template slot of the tile server configuration: the template
string, its fixed path-segment literal, and the extra placeholders
(`{}` in the source, i.e. the empty set). -/
structure TemplateEntry where
  template : String
  pathSegment : String
  placeholders : List String
  deriving DecidableEq, Repr

/-- mbgl::TileServerOptions — the tile server configuration aggregate.
Field layout follows the setters invoked by `MapRenderer_new`. -/
structure TileServerOptions where
  baseURL : String
  uriSchemeAlias : String
  apiKeyParameterName : String
  sourceTemplate : TemplateEntry
  styleTemplate : TemplateEntry
  spritesTemplate : TemplateEntry
  glyphsTemplate : TemplateEntry
  tileTemplate : TemplateEntry
  defaultStyles : List DefaultStyle
  defaultStyle : String
  requiresApiKey : Bool
  deriving DecidableEq, Repr

/-- Modelled from the spec: a default-constructed `TileServerOptions()`
before any of the façade's setters run.  Every field it contains is
overwritten by the setter chain in `MapRenderer_new`, so the concrete
defaults are irrelevant to the claims; we use empty values. -/
def TileServerOptions.default : TileServerOptions :=
  { baseURL := ""
    uriSchemeAlias := ""
    apiKeyParameterName := ""
    sourceTemplate := ⟨"", "", []⟩
    styleTemplate := ⟨"", "", []⟩
    spritesTemplate := ⟨"", "", []⟩
    glyphsTemplate := ⟨"", "", []⟩
    tileTemplate := ⟨"", "", []⟩
    defaultStyles := []
    defaultStyle := ""
    requiresApiKey := false }

/-- One setter invocation on `TileServerOptions`, with its payload.
`MapRenderer_new` builds the configuration as a chain of these. -/
inductive TSSetterOp
  | withBaseURL (s : String)
  | withUriSchemeAlias (s : String)
  | withApiKeyParameterName (s : String)
  | withSourceTemplate (t seg : String) (ph : List String)
  | withStyleTemplate (t seg : String) (ph : List String)
  | withSpritesTemplate (t seg : String) (ph : List String)
  | withGlyphsTemplate (t seg : String) (ph : List String)
  | withTileTemplate (t seg : String) (ph : List String)
  | withDefaultStyles (l : List DefaultStyle)
  | withDefaultStyle (name : String)
  | setRequiresApiKey (b : Bool)
  deriving DecidableEq, Repr

/-- Modelled from the spec: each tile-server setter independently stores
its payload into the corresponding field of the configuration. -/
def TSSetterOp.apply (o : TileServerOptions) : TSSetterOp → TileServerOptions
  | .withBaseURL s => { o with baseURL := s }
  | .withUriSchemeAlias s => { o with uriSchemeAlias := s }
  | .withApiKeyParameterName s => { o with apiKeyParameterName := s }
  | .withSourceTemplate t seg ph => { o with sourceTemplate := ⟨t, seg, ph⟩ }
  | .withStyleTemplate t seg ph => { o with styleTemplate := ⟨t, seg, ph⟩ }
  | .withSpritesTemplate t seg ph => { o with spritesTemplate := ⟨t, seg, ph⟩ }
  | .withGlyphsTemplate t seg ph => { o with glyphsTemplate := ⟨t, seg, ph⟩ }
  | .withTileTemplate t seg ph => { o with tileTemplate := ⟨t, seg, ph⟩ }
  | .withDefaultStyles l => { o with defaultStyles := l }
  | .withDefaultStyle name => { o with defaultStyle := name }
  | .setRequiresApiKey b => { o with requiresApiKey := b }

/-- The setter chain executed by `MapRenderer_new` on
`TileServerOptions()`, in source order (map_renderer.h lines 63-74),
with the literal payloads of the source: the five fixed path-segment
literals `""`, `"maps"`, `""`, `"fonts"`, `"tiles"`, each with the empty
placeholder set `{}`, and the single default style
`DefaultStyle(defaultStyleUrl, "Basic", 1)` followed by selecting
`"Basic"`. -/
def tileServerSetterChain
    (baseUrl uriSchemeAlias apiKeyParameterName : String)
    (sourceTemplate styleTemplate spritesTemplate glyphsTemplate tileTemplate : String)
    (defaultStyleUrl : String) (requiresApiKey : Bool) : List TSSetterOp :=
  [ .withBaseURL baseUrl
  , .withUriSchemeAlias uriSchemeAlias
  , .withApiKeyParameterName apiKeyParameterName
  , .withSourceTemplate sourceTemplate "" []
  , .withStyleTemplate styleTemplate "maps" []
  , .withSpritesTemplate spritesTemplate "" []
  , .withGlyphsTemplate glyphsTemplate "fonts" []
  , .withTileTemplate tileTemplate "tiles" []
  , .withDefaultStyles [⟨defaultStyleUrl, "Basic", 1⟩]
  , .withDefaultStyle "Basic"
  , .setRequiresApiKey requiresApiKey ]

/-- The `TileServerOptions` value assembled by `MapRenderer_new`:
the default-constructed options with the source's setter chain applied
left to right. -/
def buildTileServerOptions
    (baseUrl uriSchemeAlias apiKeyParameterName : String)
    (sourceTemplate styleTemplate spritesTemplate glyphsTemplate tileTemplate : String)
    (defaultStyleUrl : String) (requiresApiKey : Bool) : TileServerOptions :=
  (tileServerSetterChain baseUrl uriSchemeAlias apiKeyParameterName
      sourceTemplate styleTemplate spritesTemplate glyphsTemplate tileTemplate
      defaultStyleUrl requiresApiKey).foldl TSSetterOp.apply TileServerOptions.default

/-- mbgl::ResourceOptions — cache path, asset path, API key, and the
embedded tile server configuration, as set by `MapRenderer_new`. -/
structure ResourceOptions where
  cachePath : String
  assetPath : String
  apiKey : String
  tileServerOptions : TileServerOptions
  deriving DecidableEq, Repr

/-- The `ResourceOptions` value assembled by `MapRenderer_new`
(map_renderer.h lines 76-81). -/
def buildResourceOptions (cachePath assetRoot apiKey : String)
    (options : TileServerOptions) : ResourceOptions :=
  { cachePath := cachePath
    assetPath := assetRoot
    apiKey := apiKey
    tileServerOptions := options }

/-- mbgl::MapOptions — mode, size and pixel ratio, as set by
`MapRenderer_new`. -/
structure MapOptions where
  mapMode : MapMode
  size : Size
  pixelRatio : F32
  deriving DecidableEq, Repr

/-- The `MapOptions` value assembled by `MapRenderer_new`
(map_renderer.h lines 83-84): `withMapMode(mapMode).withSize(size)
.withPixelRatio(pixelRatio)` with `size = {width, height}`. -/
def buildMapOptions (mapMode : MapMode) (width height : Nat)
    (pixelRatio : F32) : MapOptions :=
  { mapMode := mapMode
    size := ⟨width, height⟩
    pixelRatio := pixelRatio }

/-- Modelled from the spec: the map object's camera state — center, zoom,
bearing, pitch. -/
structure Camera where
  center : LatLng
  zoom : F64
  bearing : F64
  pitch : F64
  deriving DecidableEq, Repr

/-- mbgl::CameraOptions — an optional-field camera target.
`CameraOptions()` leaves every field unset; `withCenter`, `withZoom`,
`withBearing`, `withPitch` each set one field. -/
structure CameraOptions where
  center : Option LatLng
  zoom : Option F64
  bearing : Option F64
  pitch : Option F64
  deriving DecidableEq, Repr

/-- A default-constructed `mbgl::CameraOptions`: no field is set. -/
def CameraOptions.default : CameraOptions :=
  { center := none, zoom := none, bearing := none, pitch := none }

/-- mbgl `CameraOptions::withCenter`. -/
def CameraOptions.withCenter (c : CameraOptions) (v : LatLng) : CameraOptions :=
  { c with center := some v }

/-- mbgl `CameraOptions::withZoom`. -/
def CameraOptions.withZoom (c : CameraOptions) (v : F64) : CameraOptions :=
  { c with zoom := some v }

/-- mbgl `CameraOptions::withBearing`. -/
def CameraOptions.withBearing (c : CameraOptions) (v : F64) : CameraOptions :=
  { c with bearing := some v }

/-- mbgl `CameraOptions::withPitch`. -/
def CameraOptions.withPitch (c : CameraOptions) (v : F64) : CameraOptions :=
  { c with pitch := some v }

/-- Modelled from the spec: the map observer passed to the map
constructor.  `MapRenderer_new` always passes
`MapObserver::nullObserver()` (the no-op observer); other observers
exist in the engine, represented here by an opaque identifier. -/
inductive MapObserver
  | nullObserver
  | custom (id : Nat)
  deriving DecidableEq, Repr

/-- Modelled from the spec: the observable state of an `mbgl::Map`
object — camera, style URL, debug-flag bitmask — together with the
construction-time data it is bound to: its observer, its
`MapOptions`, its `ResourceOptions`, and the size/pixel-ratio of the
frontend it was bound to at construction (the binding is permanent). -/
structure MapState where
  camera : Camera
  styleUrl : String
  debugFlags : Nat
  observer : MapObserver
  options : MapOptions
  resources : ResourceOptions
  boundFrontendSize : Size
  boundFrontendPixelRatio : F32
  deriving DecidableEq, Repr

/-- mbgl::HeadlessFrontend — the offscreen rendering surface, holding
the size and pixel ratio its constructor received. -/
structure HeadlessFrontend where
  size : Size
  pixelRatio : F32
  deriving DecidableEq, Repr

/-- Modelled from the spec: construction of the `mbgl::Map` object from
`Map(*frontend, observer, mapOptions, resourceOptions)`.  The initial
camera is the engine's default (all-zero bit patterns); the style URL
starts empty; no debug flags are set. -/
def MapState.init (frontend : HeadlessFrontend) (observer : MapObserver)
    (mapOptions : MapOptions) (resourceOptions : ResourceOptions) : MapState :=
  { camera := ⟨⟨⟨0⟩, ⟨0⟩⟩, ⟨0⟩, ⟨0⟩, ⟨0⟩⟩
    styleUrl := ""
    debugFlags := 0
    observer := observer
    options := mapOptions
    resources := resourceOptions
    boundFrontendSize := frontend.size
    boundFrontendPixelRatio := frontend.pixelRatio }

/-- Modelled from the spec: `Map::jumpTo(cameraOptions)` immediately
repositions the view, applying each set field of the target and keeping
the prior value of each unset field; there is no animation — the new
camera state holds as soon as the call returns. -/
def MapState.jumpTo (m : MapState) (c : CameraOptions) : MapState :=
  { m with camera :=
      { center := c.center.getD m.camera.center
        zoom := c.zoom.getD m.camera.zoom
        bearing := c.bearing.getD m.camera.bearing
        pitch := c.pitch.getD m.camera.pitch } }

/-- Modelled from the spec: `Map::setDebug(flags)` sets the debug
bitmask on the map, replacing any previously set flags. -/
def MapState.setDebug (m : MapState) (flags : Nat) : MapState :=
  { m with debugFlags := flags }

/-- Modelled from the spec: `map.getStyle().loadURL(url)` initiates
loading of a new style document from the given URL, replacing the
current style. -/
def MapState.loadStyleURL (m : MapState) (url : String) : MapState :=
  { m with styleUrl := url }

/-- mbgl::PremultipliedImage — the raster produced by a render pass. -/
structure PremultipliedImage where
  size : Size
  data : List Nat
  deriving DecidableEq, Repr

/-- The result of `HeadlessFrontend::render`; the façade reads its
`.image` field. -/
structure RenderResult where
  image : PremultipliedImage
  deriving DecidableEq, Repr

/-- A render-pass failure propagated out of the engine. -/
structure RenderError where
  msg : String
  deriving DecidableEq, Repr

/-- Construction-time allocation failure: the offscreen frontend or the
map object could not be created. -/
inductive AllocationError
  | frontendAllocation
  | mapAllocation
  deriving DecidableEq, Repr

/-- An engine call issued by the façade during `MapRenderer_render`,
recorded so that theorems can count render passes. -/
inductive EngineCall
  | renderPass (frontend : HeadlessFrontend) (map : MapState)
  | encodePNG (image : PremultipliedImage)
  deriving DecidableEq, Repr

/-- Whether an engine call is a render pass. -/
def EngineCall.isRenderPass : EngineCall → Bool
  | .renderPass _ _ => true
  | .encodePNG _ => false

/-- The `MapRenderer` instance: the run loop, the owned frontend and the
owned map (map_renderer.h lines 20-33). -/
structure MapRenderer where
  runLoop : Unit
  frontend : HeadlessFrontend
  map : MapState
  deriving DecidableEq, Repr

section Facade

/- Oracle for `HeadlessFrontend` allocation success: whether the engine
can allocate an offscreen surface of the given size and pixel ratio.
On success the constructor stores its arguments. -/
variable (frontendAllocOk : Size → F32 → Bool)

/- Oracle for `mbgl::Map` allocation success. -/
variable (mapAllocOk : HeadlessFrontend → MapObserver → MapOptions → ResourceOptions → Bool)

/- Oracle for the engine's render pass
(`HeadlessFrontend::render(map)`): produces a raster or fails with a
`RenderError`.  The extra `progress` argument models the asynchronous
style/resource load progress the pass may observe; a fully loaded style
means the result no longer depends on it. -/
variable (engineRender : HeadlessFrontend → MapState → Nat → Except RenderError RenderResult)

/- Oracle for the opaque PNG codec (`encodePNG`). -/
variable (pngEncode : PremultipliedImage → List Nat)

/-- Translation of `MapRenderer_new` (map_renderer.h lines 35-89):
builds `size = {width, height}`, allocates the frontend, builds the
tile-server, resource and map configurations, allocates the map bound
to the frontend with the null observer, and returns the instance owning
both; an allocation failure aborts with an `AllocationError` and no
instance. -/
def MapRenderer_new (mapMode : MapMode) (width height : Nat) (pixelRatio : F32)
    (cachePath assetRoot apiKey baseUrl uriSchemeAlias apiKeyParameterName : String)
    (sourceTemplate styleTemplate spritesTemplate glyphsTemplate tileTemplate : String)
    (defaultStyleUrl : String) (requiresApiKey : Bool) :
    Except AllocationError MapRenderer :=
  let size : Size := ⟨width, height⟩
  if frontendAllocOk size pixelRatio then
    let frontend : HeadlessFrontend := ⟨size, pixelRatio⟩
    let options := buildTileServerOptions baseUrl uriSchemeAlias apiKeyParameterName
        sourceTemplate styleTemplate spritesTemplate glyphsTemplate tileTemplate
        defaultStyleUrl requiresApiKey
    let resourceOptions := buildResourceOptions cachePath assetRoot apiKey options
    let mapOptions := buildMapOptions mapMode width height pixelRatio
    if mapAllocOk frontend .nullObserver mapOptions resourceOptions then
      .ok ⟨(), frontend, MapState.init frontend .nullObserver mapOptions resourceOptions⟩
    else
      .error .mapAllocation
  else
    .error .frontendAllocation

/-- Translation of `MapRenderer_render` (map_renderer.h lines 91-94):
one synchronous render pass `frontend->render(*map)`, then
`encodePNG` of the resulting `.image`; an engine failure propagates
before the codec runs.  Returns the (unchanged) instance, the result,
and the list of engine calls issued. -/
def MapRenderer_render (r : MapRenderer) (progress : Nat) :
    MapRenderer × Except RenderError (List Nat) × List EngineCall :=
  match engineRender r.frontend r.map progress with
  | .ok res =>
      (r, .ok (pngEncode res.image),
        [.renderPass r.frontend r.map, .encodePNG res.image])
  | .error e =>
      (r, .error e, [.renderPass r.frontend r.map])

/-- Translation of `MapRenderer_setCamera` (map_renderer.h lines
100-108): builds a `CameraOptions` with center `{lat, lon}`, zoom,
bearing and pitch all set, and jumps the map to it. -/
def MapRenderer_setCamera (r : MapRenderer)
    (lat lon zoom bearing pitch : F64) : MapRenderer :=
  let cameraOptions := ((((CameraOptions.default.withCenter ⟨lat, lon⟩).withZoom
      zoom).withBearing bearing).withPitch pitch)
  { r with map := r.map.jumpTo cameraOptions }

/-- Translation of `MapRenderer_setStyleUrl` (map_renderer.h lines
110-112). -/
def MapRenderer_setStyleUrl (r : MapRenderer) (styleUrl : String) : MapRenderer :=
  { r with map := r.map.loadStyleURL styleUrl }

/-- Translation of `MapRenderer_setDebugFlags` (map_renderer.h lines
96-98). -/
def MapRenderer_setDebugFlags (r : MapRenderer) (debugFlags : Nat) : MapRenderer :=
  { r with map := r.map.setDebug debugFlags }

/-- A call on the instance's control surface, used to state lifetime
invariants over arbitrary operation sequences. -/
inductive RendererOp
  | setCamera (lat lon zoom bearing pitch : F64)
  | setStyleUrl (url : String)
  | setDebugFlags (flags : Nat)
  | render (progress : Nat)
  deriving DecidableEq, Repr

/-- The instance state after one control-surface call. -/
def applyOp (r : MapRenderer) : RendererOp → MapRenderer
  | .setCamera lat lon zoom bearing pitch =>
      MapRenderer_setCamera r lat lon zoom bearing pitch
  | .setStyleUrl url => MapRenderer_setStyleUrl r url
  | .setDebugFlags flags => MapRenderer_setDebugFlags r flags
  | .render progress => (MapRenderer_render engineRender pngEncode r progress).1

/-- The frontend and the map agree on size and pixel ratio: the map's
`MapOptions` and its permanent frontend binding both match the owned
frontend. -/
def sizeAgree (r : MapRenderer) : Prop :=
  r.map.options.size = r.frontend.size ∧
  r.map.options.pixelRatio = r.frontend.pixelRatio ∧
  r.map.boundFrontendSize = r.frontend.size ∧
  r.map.boundFrontendPixelRatio = r.frontend.pixelRatio

end Facade

/-! Concrete fixtures used by the witness theorems. -/

/-- A frontend-allocation oracle that always succeeds. -/
def alwaysFrontendAlloc : Size → F32 → Bool := fun _ _ => true

/-- A frontend-allocation oracle that always fails. -/
def neverFrontendAlloc : Size → F32 → Bool := fun _ _ => false

/-- A map-allocation oracle that always succeeds. -/
def alwaysMapAlloc : HeadlessFrontend → MapObserver → MapOptions → ResourceOptions → Bool :=
  fun _ _ _ _ => true

/-- A map-allocation oracle that always fails. -/
def neverMapAlloc : HeadlessFrontend → MapObserver → MapOptions → ResourceOptions → Bool :=
  fun _ _ _ _ => false

/-- An engine-render oracle that always produces the same fixed raster. -/
def constEngineRender : HeadlessFrontend → MapState → Nat → Except RenderError RenderResult :=
  fun _ _ _ => .ok ⟨⟨⟨2, 2⟩, [9, 9, 9, 9]⟩⟩

/-- A stand-in PNG codec returning the raw pixel data. -/
def imageDataEncode : PremultipliedImage → List Nat := fun img => img.data

/-- The tile server configuration of the sample instance. -/
def sampleTileServerOptions : TileServerOptions :=
  buildTileServerOptions "b" "u" "p" "s1" "s2" "s3" "s4" "s5" "d" true

/-- The resource configuration of the sample instance. -/
def sampleResourceOptions : ResourceOptions :=
  buildResourceOptions "c" "a" "k" sampleTileServerOptions

/-- The map configuration of the sample instance. -/
def sampleMapOptions : MapOptions := buildMapOptions .static 64 64 ⟨1⟩

/-- The frontend of the sample instance. -/
def sampleFrontend : HeadlessFrontend := ⟨⟨64, 64⟩, ⟨1⟩⟩

/-- A sample `MapRenderer` instance, exactly as `MapRenderer_new` builds
it on successful allocation. -/
def sampleRenderer : MapRenderer :=
  ⟨(), sampleFrontend,
    MapState.init sampleFrontend .nullObserver sampleMapOptions sampleResourceOptions⟩

/-- Helper: `MapRenderer_render` returns the instance unchanged (the
source method reads `frontend` and `map` but reassigns neither). -/
lemma MapRenderer_render_fst
    (er : HeadlessFrontend → MapState → Nat → Except RenderError RenderResult)
    (enc : PremultipliedImage → List Nat) (r : MapRenderer) (progress : Nat) :
    (MapRenderer_render er enc r progress).1 = r := by
  cases h : er r.frontend r.map progress <;> simp [MapRenderer_render, h]

/-- C1: `MapRenderer_render` leaves the instance unchanged, issues
exactly one render pass against the instance's bound map and frontend,
and returns exactly the PNG encoding of the raster that pass produced —
an engine error propagates unchanged, so the result is either a
complete encoded image or an error, with no partial-success value. -/
theorem MapRenderer_render_single_pass_png
    (er : HeadlessFrontend → MapState → Nat → Except RenderError RenderResult)
    (enc : PremultipliedImage → List Nat) (r : MapRenderer) (progress : Nat) :
    (MapRenderer_render er enc r progress).1 = r ∧
    (MapRenderer_render er enc r progress).2.2.countP
      (fun c => c.isRenderPass) = 1 ∧
    (MapRenderer_render er enc r progress).2.1 =
      (er r.frontend r.map progress).map (fun rr => enc rr.image) ∧
    ((∃ bytes, (MapRenderer_render er enc r progress).2.1 = .ok bytes) ∨
      (∃ e, (MapRenderer_render er enc r progress).2.1 = .error e)) := by
  cases h : er r.frontend r.map progress <;>
    simp [MapRenderer_render, h, EngineCall.isRenderPass, Except.map]

/-- C2: for all inputs, `MapRenderer_setCamera` replaces whatever
camera state the map held before with exactly the given center
`(lat, lon)`, zoom, bearing and pitch, by an instantaneous jump; the
five values are stored bit-for-bit, with no range check in this layer
(the theorem holds for every `F64` bit pattern, with no hypothesis). -/
theorem MapRenderer_setCamera_replaces_camera
    (r : MapRenderer) (lat lon zoom bearing pitch : F64) :
    (MapRenderer_setCamera r lat lon zoom bearing pitch).map.camera =
      ⟨⟨lat, lon⟩, zoom, bearing, pitch⟩ :=
  rfl

/-- C3: for every `defaultStyleUrl`, the assembled tile server
configuration registers exactly one default style — name `"Basic"`,
version 1, URL `defaultStyleUrl` — and selects `"Basic"` as the active
default style, the selected name resolves against the registered list,
and in the setter chain the registration of the style list strictly
precedes the selection by name. -/
theorem defaultStyle_registration_and_selection
    (b u p s1 s2 s3 s4 s5 d : String) (q : Bool) :
    (buildTileServerOptions b u p s1 s2 s3 s4 s5 d q).defaultStyles =
      [⟨d, "Basic", 1⟩] ∧
    (buildTileServerOptions b u p s1 s2 s3 s4 s5 d q).defaultStyle = "Basic" ∧
    (∃ s, s ∈ (buildTileServerOptions b u p s1 s2 s3 s4 s5 d q).defaultStyles ∧
      s.name = (buildTileServerOptions b u p s1 s2 s3 s4 s5 d q).defaultStyle) ∧
    (∃ i : Nat, ∃ j : Nat, i < j ∧
      (tileServerSetterChain b u p s1 s2 s3 s4 s5 d q)[i]? =
        some (TSSetterOp.withDefaultStyles [⟨d, "Basic", 1⟩]) ∧
      (tileServerSetterChain b u p s1 s2 s3 s4 s5 d q)[j]? =
        some (TSSetterOp.withDefaultStyle "Basic")) := by
  refine ⟨rfl, rfl, ⟨⟨d, "Basic", 1⟩, ?_, rfl⟩, ⟨8, 9, ?_, rfl, rfl⟩⟩
  · exact List.mem_singleton.mpr rfl
  · norm_num

/-- C4: for every set of construction inputs, the five URL templates
are installed with the fixed path-segment literals `""` (source),
`"maps"` (style), `""` (sprites), `"fonts"` (glyphs), `"tiles"` (tile),
each with an empty placeholder set; the literals are the same for all
caller inputs (the theorem quantifies over every input). -/
theorem url_templates_fixed_path_segments
    (b u p s1 s2 s3 s4 s5 d : String) (q : Bool) :
    (buildTileServerOptions b u p s1 s2 s3 s4 s5 d q).sourceTemplate =
      ⟨s1, "", []⟩ ∧
    (buildTileServerOptions b u p s1 s2 s3 s4 s5 d q).styleTemplate =
      ⟨s2, "maps", []⟩ ∧
    (buildTileServerOptions b u p s1 s2 s3 s4 s5 d q).spritesTemplate =
      ⟨s3, "", []⟩ ∧
    (buildTileServerOptions b u p s1 s2 s3 s4 s5 d q).glyphsTemplate =
      ⟨s4, "fonts", []⟩ ∧
    (buildTileServerOptions b u p s1 s2 s3 s4 s5 d q).tileTemplate =
      ⟨s5, "tiles", []⟩ :=
  ⟨rfl, rfl, rfl, rfl, rfl⟩

/-- C5: configuration assembly has no failure path — for every input,
including empty strings and a zero width or height, the three
configuration aggregates are built with every string stored unmodified
and `size = (width, height)` with no lower-bound check; and the size is
forwarded to the engine's allocators, so that whenever the engine
accepts it (for any width and height, zero included) an instance with a
frontend of exactly that size comes back. -/
theorem config_assembly_total_passthrough
    (frontendAllocOk : Size → F32 → Bool)
    (mapAllocOk : HeadlessFrontend → MapObserver → MapOptions → ResourceOptions → Bool)
    (mapMode : MapMode) (width height : Nat) (pixelRatio : F32)
    (cachePath assetRoot apiKey b u p s1 s2 s3 s4 s5 d : String) (q : Bool) :
    buildTileServerOptions b u p s1 s2 s3 s4 s5 d q =
      ⟨b, u, p, ⟨s1, "", []⟩, ⟨s2, "maps", []⟩, ⟨s3, "", []⟩, ⟨s4, "fonts", []⟩,
        ⟨s5, "tiles", []⟩, [⟨d, "Basic", 1⟩], "Basic", q⟩ ∧
    buildResourceOptions cachePath assetRoot apiKey
        (buildTileServerOptions b u p s1 s2 s3 s4 s5 d q) =
      ⟨cachePath, assetRoot, apiKey, buildTileServerOptions b u p s1 s2 s3 s4 s5 d q⟩ ∧
    buildMapOptions mapMode width height pixelRatio =
      ⟨mapMode, ⟨width, height⟩, pixelRatio⟩ ∧
    (frontendAllocOk ⟨width, height⟩ pixelRatio = true →
      mapAllocOk ⟨⟨width, height⟩, pixelRatio⟩ .nullObserver
          (buildMapOptions mapMode width height pixelRatio)
          (buildResourceOptions cachePath assetRoot apiKey
            (buildTileServerOptions b u p s1 s2 s3 s4 s5 d q)) = true →
      ∃ inst, MapRenderer_new frontendAllocOk mapAllocOk mapMode width height pixelRatio
          cachePath assetRoot apiKey b u p s1 s2 s3 s4 s5 d q = .ok inst ∧
        inst.frontend.size = ⟨width, height⟩ ∧
        inst.frontend.pixelRatio = pixelRatio) := by
  refine ⟨rfl, rfl, rfl, fun h1 h2 => ?_⟩
  refine ⟨⟨(), ⟨⟨width, height⟩, pixelRatio⟩,
    MapState.init ⟨⟨width, height⟩, pixelRatio⟩ .nullObserver
      (buildMapOptions mapMode width height pixelRatio)
      (buildResourceOptions cachePath assetRoot apiKey
        (buildTileServerOptions b u p s1 s2 s3 s4 s5 d q))⟩, ?_, rfl, rfl⟩
  simp [MapRenderer_new, h1, h2]

/-- C5 witness: with always-succeeding allocation oracles, even a zero
width is accepted by the assembly layer and forwarded: construction
returns an instance whose frontend has size `(0, 64)`. -/
theorem config_assembly_total_passthrough_witness :
    ∃ inst, MapRenderer_new alwaysFrontendAlloc alwaysMapAlloc .static 0 64 ⟨1⟩
        "c" "a" "k" "b" "u" "p" "s1" "s2" "s3" "s4" "s5" "d" true = .ok inst ∧
      inst.frontend.size = ⟨0, 64⟩ ∧ inst.frontend.pixelRatio = ⟨1⟩ :=
  (config_assembly_total_passthrough alwaysFrontendAlloc alwaysMapAlloc
    .static 0 64 ⟨1⟩ "c" "a" "k" "b" "u" "p" "s1" "s2" "s3" "s4" "s5" "d" true).2.2.2
    rfl rfl

/-- C6: `MapRenderer_new` allocates a frontend of exactly
`(width, height)` with the given pixel ratio and a map bound to that
frontend with the null observer; if the frontend allocation fails the
result is an `AllocationError` and no instance, if the map allocation
fails likewise, and on success the returned instance holds exactly the
two allocations. -/
theorem MapRenderer_new_allocation_contract
    (frontendAllocOk : Size → F32 → Bool)
    (mapAllocOk : HeadlessFrontend → MapObserver → MapOptions → ResourceOptions → Bool)
    (mapMode : MapMode) (width height : Nat) (pixelRatio : F32)
    (cachePath assetRoot apiKey b u p s1 s2 s3 s4 s5 d : String) (q : Bool) :
    (frontendAllocOk ⟨width, height⟩ pixelRatio = false →
      MapRenderer_new frontendAllocOk mapAllocOk mapMode width height pixelRatio
        cachePath assetRoot apiKey b u p s1 s2 s3 s4 s5 d q =
        .error .frontendAllocation) ∧
    (frontendAllocOk ⟨width, height⟩ pixelRatio = true →
      mapAllocOk ⟨⟨width, height⟩, pixelRatio⟩ .nullObserver
          (buildMapOptions mapMode width height pixelRatio)
          (buildResourceOptions cachePath assetRoot apiKey
            (buildTileServerOptions b u p s1 s2 s3 s4 s5 d q)) = false →
      MapRenderer_new frontendAllocOk mapAllocOk mapMode width height pixelRatio
        cachePath assetRoot apiKey b u p s1 s2 s3 s4 s5 d q =
        .error .mapAllocation) ∧
    (frontendAllocOk ⟨width, height⟩ pixelRatio = true →
      mapAllocOk ⟨⟨width, height⟩, pixelRatio⟩ .nullObserver
          (buildMapOptions mapMode width height pixelRatio)
          (buildResourceOptions cachePath assetRoot apiKey
            (buildTileServerOptions b u p s1 s2 s3 s4 s5 d q)) = true →
      MapRenderer_new frontendAllocOk mapAllocOk mapMode width height pixelRatio
        cachePath assetRoot apiKey b u p s1 s2 s3 s4 s5 d q =
        .ok ⟨(), ⟨⟨width, height⟩, pixelRatio⟩,
          MapState.init ⟨⟨width, height⟩, pixelRatio⟩ .nullObserver
            (buildMapOptions mapMode width height pixelRatio)
            (buildResourceOptions cachePath assetRoot apiKey
              (buildTileServerOptions b u p s1 s2 s3 s4 s5 d q))⟩) := by
  refine ⟨fun h1 => ?_, fun h1 h2 => ?_, fun h1 h2 => ?_⟩
  · simp [MapRenderer_new, h1]
  · simp [MapRenderer_new, h1, h2]
  · simp [MapRenderer_new, h1, h2]

/-- C6 witness: the three allocation outcomes at concrete inputs — a
failing frontend allocation yields `AllocationError.frontendAllocation`,
a failing map allocation yields `AllocationError.mapAllocation`, and
successful allocations yield exactly the sample instance. -/
theorem MapRenderer_new_allocation_contract_witness :
    MapRenderer_new neverFrontendAlloc alwaysMapAlloc .static 64 64 ⟨1⟩
      "c" "a" "k" "b" "u" "p" "s1" "s2" "s3" "s4" "s5" "d" true =
      .error .frontendAllocation ∧
    MapRenderer_new alwaysFrontendAlloc neverMapAlloc .static 64 64 ⟨1⟩
      "c" "a" "k" "b" "u" "p" "s1" "s2" "s3" "s4" "s5" "d" true =
      .error .mapAllocation ∧
    MapRenderer_new alwaysFrontendAlloc alwaysMapAlloc .static 64 64 ⟨1⟩
      "c" "a" "k" "b" "u" "p" "s1" "s2" "s3" "s4" "s5" "d" true =
      .ok sampleRenderer :=
  ⟨(MapRenderer_new_allocation_contract neverFrontendAlloc alwaysMapAlloc
      .static 64 64 ⟨1⟩ "c" "a" "k" "b" "u" "p" "s1" "s2" "s3" "s4" "s5" "d" true).1 rfl,
    (MapRenderer_new_allocation_contract alwaysFrontendAlloc neverMapAlloc
      .static 64 64 ⟨1⟩ "c" "a" "k" "b" "u" "p" "s1" "s2" "s3" "s4" "s5" "d" true).2.1 rfl rfl,
    (MapRenderer_new_allocation_contract alwaysFrontendAlloc alwaysMapAlloc
      .static 64 64 ⟨1⟩ "c" "a" "k" "b" "u" "p" "s1" "s2" "s3" "s4" "s5" "d" true).2.2 rfl rfl⟩

/-- C7: the three mutators return only the updated instance (no other
value) and each rewrites exactly one field of the state reached through
the `map` member — camera, style URL or debug flags respectively — while
the frontend, the run loop and every other map field are unchanged:
each result is the input instance with only that field replaced. -/
theorem mutators_only_touch_map_state
    (r : MapRenderer) (lat lon zoom bearing pitch : F64)
    (url : String) (flags : Nat) :
    MapRenderer_setCamera r lat lon zoom bearing pitch =
      { r with map := { r.map with camera := ⟨⟨lat, lon⟩, zoom, bearing, pitch⟩ } } ∧
    MapRenderer_setStyleUrl r url =
      { r with map := { r.map with styleUrl := url } } ∧
    MapRenderer_setDebugFlags r flags =
      { r with map := { r.map with debugFlags := flags } } :=
  ⟨rfl, rfl, rfl⟩

/-- C8: `MapRenderer_setDebugFlags` sets the map's debug state to
exactly the given bitmask, replacing (not combining with) any earlier
flags: after two successive calls the state equals the second mask. -/
theorem MapRenderer_setDebugFlags_replaces (r : MapRenderer) (f f1 f2 : Nat) :
    (MapRenderer_setDebugFlags r f).map.debugFlags = f ∧
    (MapRenderer_setDebugFlags (MapRenderer_setDebugFlags r f1) f2).map.debugFlags = f2 :=
  ⟨rfl, rfl⟩

/-- C9: with a fully loaded style — formalised as the engine's render
pass no longer depending on load progress at the instance's state —
two successive `MapRenderer_render` calls with no intervening mutator
return byte-identical results (the first call hands back the instance
unchanged and the second pass sees the same state). -/
theorem MapRenderer_render_deterministic
    (er : HeadlessFrontend → MapState → Nat → Except RenderError RenderResult)
    (enc : PremultipliedImage → List Nat) (r : MapRenderer) (p1 p2 : Nat)
    (hloaded : ∀ pa pb, er r.frontend r.map pa = er r.frontend r.map pb) :
    (MapRenderer_render er enc (MapRenderer_render er enc r p1).1 p2).2.1 =
      (MapRenderer_render er enc r p1).2.1 := by
  rw [MapRenderer_render_fst]
  simp only [MapRenderer_render]
  rw [hloaded p2 p1]

/-- C9 witness: with a constant engine render, two renders of the
sample instance return identical bytes. -/
theorem MapRenderer_render_deterministic_witness :
    (MapRenderer_render constEngineRender imageDataEncode
      (MapRenderer_render constEngineRender imageDataEncode sampleRenderer 0).1 1).2.1 =
      (MapRenderer_render constEngineRender imageDataEncode sampleRenderer 0).2.1 :=
  MapRenderer_render_deterministic constEngineRender imageDataEncode sampleRenderer 0 1
    (fun _ _ => rfl)

/-- C10: the frontend and the map are built from the same size pair and
pixel ratio — any successfully constructed instance satisfies
`sizeAgree`, its frontend being exactly `(width, height)` at the given
pixel ratio — and every sequence of control-surface operations
preserves `sizeAgree`, so the agreement holds for the instance's whole
lifetime. -/
theorem frontend_map_size_agreement
    (frontendAllocOk : Size → F32 → Bool)
    (mapAllocOk : HeadlessFrontend → MapObserver → MapOptions → ResourceOptions → Bool)
    (er : HeadlessFrontend → MapState → Nat → Except RenderError RenderResult)
    (enc : PremultipliedImage → List Nat)
    (mapMode : MapMode) (width height : Nat) (pixelRatio : F32)
    (cachePath assetRoot apiKey b u p s1 s2 s3 s4 s5 d : String) (q : Bool)
    (r : MapRenderer) (ops : List RendererOp) :
    (∀ inst, MapRenderer_new frontendAllocOk mapAllocOk mapMode width height pixelRatio
        cachePath assetRoot apiKey b u p s1 s2 s3 s4 s5 d q = .ok inst →
      inst.frontend = ⟨⟨width, height⟩, pixelRatio⟩ ∧
      inst.map.options.size = ⟨width, height⟩ ∧
      inst.map.options.pixelRatio = pixelRatio ∧ sizeAgree inst) ∧
    (sizeAgree r → sizeAgree (ops.foldl (applyOp er enc) r)) := by
  constructor
  · intro inst hinst
    simp only [MapRenderer_new] at hinst
    split at hinst
    · split at hinst
      · simp only [Except.ok.injEq] at hinst
        subst hinst
        exact ⟨rfl, rfl, rfl, rfl, rfl, rfl, rfl⟩
      · simp at hinst
    · simp at hinst
  · intro hr
    induction ops generalizing r with
    | nil => exact hr
    | cons op rest ih =>
      refine ih _ ?_
      cases op with
      | setCamera lat lon zoom bearing pitch =>
          simpa [applyOp, MapRenderer_setCamera, MapState.jumpTo, sizeAgree] using hr
      | setStyleUrl url =>
          simpa [applyOp, MapRenderer_setStyleUrl, MapState.loadStyleURL, sizeAgree] using hr
      | setDebugFlags flags =>
          simpa [applyOp, MapRenderer_setDebugFlags, MapState.setDebug, sizeAgree] using hr
      | render progress =>
          simpa [applyOp, MapRenderer_render_fst] using hr

/-- C10 witness: the successfully constructed sample instance satisfies
the agreement, and the agreement survives a concrete sequence of all
four control-surface operations. -/
theorem frontend_map_size_agreement_witness :
    (sampleRenderer.frontend = ⟨⟨64, 64⟩, ⟨1⟩⟩ ∧
      sampleRenderer.map.options.size = ⟨64, 64⟩ ∧
      sampleRenderer.map.options.pixelRatio = ⟨1⟩ ∧ sizeAgree sampleRenderer) ∧
    sizeAgree (([RendererOp.setCamera ⟨1⟩ ⟨2⟩ ⟨3⟩ ⟨4⟩ ⟨5⟩, .setStyleUrl "x",
        .setDebugFlags 3, .render 0]).foldl
      (applyOp constEngineRender imageDataEncode) sampleRenderer) :=
  ⟨(frontend_map_size_agreement alwaysFrontendAlloc alwaysMapAlloc
      constEngineRender imageDataEncode .static 64 64 ⟨1⟩
      "c" "a" "k" "b" "u" "p" "s1" "s2" "s3" "s4" "s5" "d" true
      sampleRenderer []).1 sampleRenderer rfl,
    (frontend_map_size_agreement alwaysFrontendAlloc alwaysMapAlloc
      constEngineRender imageDataEncode .static 64 64 ⟨1⟩
      "c" "a" "k" "b" "u" "p" "s1" "s2" "s3" "s4" "s5" "d" true
      sampleRenderer [RendererOp.setCamera ⟨1⟩ ⟨2⟩ ⟨3⟩ ⟨4⟩ ⟨5⟩, .setStyleUrl "x",
        .setDebugFlags 3, .render 0]).2 ⟨rfl, rfl, rfl, rfl⟩⟩

end MapRendererSpec
